import Mathlib

/-
Verification of the ODBC marshalling layer in teradata/tdodbc.py.

The native ODBC driver is an external C library reached through ctypes; we
model each native call by its observable response (a return code plus the
diagnostic records subsequently retrievable for the handle), supplied by an
explicit driver/oracle argument.  Character buffers are modelled as lists of
natural numbers (one entry per character slot; 0 is the terminator written
and searched for by the helpers createBuffer/outputStr of the source).
-/

namespace PyTd

/-- Return code SQL_SUCCESS (tdodbc.py line 36). -/
def SQL_SUCCESS : Int := 0

/-- Return code SQL_SUCCESS_WITH_INFO (tdodbc.py line 36). -/
def SQL_SUCCESS_WITH_INFO : Int := 1

/-- Return code SQL_ERROR (tdodbc.py line 36). -/
def SQL_ERROR : Int := -1

/-- Return code SQL_INVALID_HANDLE (tdodbc.py line 36). -/
def SQL_INVALID_HANDLE : Int := -2

/-- Return code SQL_NO_DATA (tdodbc.py line 36). -/
def SQL_NO_DATA : Int := 100

/-- Length sentinel SQL_NULL_DATA (tdodbc.py line 41). -/
def SQL_NULL_DATA : Int := -1

/-- Length sentinel SQL_NTS, null-terminated string (tdodbc.py line 41). -/
def SQL_NTS : Int := -3

/-- Buffer size constant, 2 to the 12 (tdodbc.py line 64). -/
def SMALL_BUFFER_SIZE : Nat := 4096

/-- Buffer size constant, 2 to the 20 (tdodbc.py line 65). -/
def LARGE_BUFFER_SIZE : Nat := 1048576

/-- SQLSTATE for data truncation (tdodbc.py line 47). -/
def SQL_STATE_DATA_TRUNCATED : String := "01004"

/-- SQLSTATE for connection not open (tdodbc.py line 48). -/
def SQL_STATE_CONNECTION_NOT_OPEN : String := "08003"

/-- SQLSTATE for invalid transaction state (tdodbc.py line 49). -/
def SQL_STATE_INVALID_TRANSACTION_STATE : String := "25000"

/-- One diagnostic record as accumulated by getDiagnosticInfo: SQLSTATE,
message text, and the absolute value of the native error code
(tdodbc.py line 119). -/
structure DiagRec where
  state : String
  message : String
  native : Nat
deriving Repr, DecidableEq

/-- The DatabaseError raised by checkStatus: native code, formatted message,
SQLSTATE (tdodbc.py line 147). -/
structure DatabaseError where
  native : Nat
  message : String
  state : String
deriving Repr, DecidableEq

/-- The InterfaceError of the api module: an error code and a message. -/
structure InterfaceError where
  code : String
  message : String
deriving Repr, DecidableEq

/-- The message format used when checkStatus raises: state in square
brackets, then the record message (tdodbc.py line 147). -/
def formatMessage (r : DiagRec) : String :=
  "[" ++ r.state ++ "] " ++ r.message

/-- The DatabaseError built by checkStatus from a diagnostic record
(tdodbc.py line 147). -/
def mkDatabaseError (r : DiagRec) : DatabaseError :=
  ⟨r.native, formatMessage r, r.state⟩

/-- The record scan of checkStatus (tdodbc.py lines 141 to 152).  The
accumulator collects the SQLSTATE of every record visited, in reverse.  For
SQL_SUCCESS_WITH_INFO every record is only logged; otherwise the first
record whose state is not in the ignore list raises, and the first record
whose state is in the ignore list breaks out of the scan. -/
def checkStatusScan (rc : Int) (ignore : List String) :
    List DiagRec → List String → Except DatabaseError (List String)
  | [], acc => .ok acc.reverse
  | r :: rest, acc =>
    if rc = SQL_SUCCESS_WITH_INFO then
      checkStatusScan rc ignore rest (r.state :: acc)
    else if r.state ∈ ignore then
      .ok (r.state :: acc).reverse
    else
      .error (mkDatabaseError r)

/-- checkStatus (tdodbc.py lines 130 to 155), with the diagnostic records of
the relevant handle passed in as the list that getDiagnosticInfo returned.
For SQL_SUCCESS and SQL_NO_DATA the diagnostics are not consulted at all and
the empty state list is returned; otherwise the records are scanned. -/
def checkStatus (rc : Int) (info : List DiagRec) (ignore : List String) :
    Except DatabaseError (List String) :=
  if rc = SQL_SUCCESS ∨ rc = SQL_NO_DATA then .ok []
  else checkStatusScan rc ignore info []

/-- Response of one SQLGetDiagRecW call: return code, SQLSTATE, message,
native error code, and the reported message length.  The driver is modelled
as an oracle mapping the record index and the current message buffer size to
such a response. -/
structure DiagResponse where
  rc : Int
  state : String
  message : String
  native : Int
  msgLen : Nat
deriving Repr, DecidableEq

/-- The retrieval loop of getDiagnosticInfo (tdodbc.py lines 111 to 128),
driven by the response oracle.  State: current record index, current message
buffer size, count of buffer-resize retries already taken for the current
record, and the accumulated records (in reverse), each paired with the
number of retries that preceded its acceptance.  The source loop is a plain
while True; a fuel argument makes it total, with none meaning the fuel was
exhausted before the loop returned. -/
def getDiagLoop (oracle : Nat → Nat → DiagResponse) :
    Nat → Nat → Nat → List (DiagRec × Nat) → Nat →
      Option (Except InterfaceError (List (DiagRec × Nat)))
  | _, _, _, _, 0 => none
  | infoNumber, bufSize, retries, acc, fuel + 1 =>
    let r := oracle infoNumber bufSize
    if r.rc = SQL_SUCCESS_WITH_INFO ∧ bufSize < r.msgLen then
      getDiagLoop oracle infoNumber r.msgLen (retries + 1) acc fuel
    else if r.rc = SQL_SUCCESS ∨ r.rc = SQL_SUCCESS_WITH_INFO then
      getDiagLoop oracle (infoNumber + 1) bufSize 0
        ((⟨r.state, r.message, r.native.natAbs⟩, retries) :: acc) fuel
    else if r.rc = SQL_NO_DATA then
      some (.ok acc.reverse)
    else if r.rc = SQL_INVALID_HANDLE then
      some (.error ⟨"SQL_INVALID_HANDLE", "Invalid handle passed to SQLGetDiagRecW."⟩)
    else if r.rc = SQL_ERROR then
      some (.error ⟨"SQL_ERROR", "SQL_ERROR returned from SQLGetDiagRecW."⟩)
    else
      some (.error ⟨"UNKNOWN_RETURN_CODE", "SQLGetDiagRecW returned an unknown return code."⟩)

/-- getDiagnosticInfo (tdodbc.py lines 103 to 128): the scan starts at record
index 1 with a message buffer of SMALL_BUFFER_SIZE. -/
def getDiagnosticInfo (oracle : Nat → Nat → DiagResponse) (fuel : Nat) :
    Option (Except InterfaceError (List (DiagRec × Nat))) :=
  getDiagLoop oracle 1 SMALL_BUFFER_SIZE 0 [] fuel

/-- A primitive-response sequence under which record 1 reports a too-small
buffer twice in a row with growing required lengths before succeeding, and
record 2 reports no-data. -/
def c10Oracle : Nat → Nat → DiagResponse := fun i b =>
  if i = 1 then
    if b < 5000 then ⟨SQL_SUCCESS_WITH_INFO, "01004", "trunc", 0, 5000⟩
    else if b < 6000 then ⟨SQL_SUCCESS_WITH_INFO, "01004", "trunc", 0, 6000⟩
    else ⟨SQL_SUCCESS, "HY000", "m", 1, 1⟩
  else ⟨SQL_NO_DATA, "", "", 0, 0⟩

/-- A well-behaved diagnostic source: one record together with the exact
buffer length it requires. -/
structure DiagSpec where
  record : DiagRec
  reqLen : Nat
deriving Repr, DecidableEq

/-- Response of a well-behaved primitive for one record slot: if the buffer
is smaller than the required length, report success-with-info carrying the
required length; otherwise succeed with the record; an empty slot reports
no-data. -/
def mkDiagResponse (sp? : Option DiagSpec) (b : Nat) : DiagResponse :=
  match sp? with
  | some sp =>
    if b < sp.reqLen then
      ⟨SQL_SUCCESS_WITH_INFO, sp.record.state, sp.record.message, (sp.record.native : Int), sp.reqLen⟩
    else
      ⟨SQL_SUCCESS, sp.record.state, sp.record.message, (sp.record.native : Int), sp.reqLen⟩
  | none => ⟨SQL_NO_DATA, "", "", 0, 0⟩

/-- The oracle of a well-behaved primitive holding the given record list
(record indices are 1-based, as in SQLGetDiagRecW). -/
def mkOracle (recs : List DiagSpec) : Nat → Nat → DiagResponse := fun i b =>
  mkDiagResponse (recs.get? (i - 1)) b

/-- Observable outcome of one native call: a return code together with the
diagnostic records retrievable afterwards for the handle it was issued on. -/
structure CallResult where
  rc : Int
  info : List DiagRec
deriving Repr, DecidableEq

/-- State of an OdbcCursor relevant to close: whether its statement handle
is still set (tdodbc.py lines 355 and 378; None is modelled as false). -/
structure CursorState where
  hStmt : Bool
deriving Repr, DecidableEq

/-- State of an OdbcConnection relevant to close: whether its connection
handle is still set, the session number, the owned cursors, and whether it
is still in the module-level connections list. -/
structure ConnState where
  hDbc : Bool
  sessionno : Nat
  cursors : List CursorState
  inConnections : Bool
deriving Repr, DecidableEq

/-- Native calls issued by the close path, for stating which calls happen
and how often. -/
inductive CloseEv where
  | freeStmtCall
  | disconnectCall
  | rollbackCall
  | freeHandleCall
deriving Repr, DecidableEq

/-- The driver responses consumed by OdbcConnection.close, in program
order: one SQLFreeHandle response per owned cursor, the first
SQLDisconnect, the SQLEndTran rollback, the retried SQLDisconnect, and the
final SQLFreeHandle on the connection handle. -/
structure CloseDriver where
  cursorFree : List CallResult
  disconnect1 : CallResult
  rollback : CallResult
  disconnect2 : CallResult
  freeHandle : CallResult
deriving Repr, DecidableEq

/-- OdbcCursor.close (tdodbc.py lines 371 to 378): if the statement handle
is set, free it, check the status, and clear the handle; otherwise do
nothing at all. -/
def cursorClose (d : CallResult) (c : CursorState) :
    Except DatabaseError (CursorState × List CloseEv) :=
  if c.hStmt then
    match checkStatus d.rc d.info [] with
    | .error e => .error e
    | .ok _ => .ok (⟨false⟩, [CloseEv.freeStmtCall])
  else .ok (c, [])

/-- The cursor loop of OdbcConnection.close (tdodbc.py lines 298 to 299),
closing every owned cursor in order. -/
def closeAllCursors : List CallResult → List CursorState → Except DatabaseError (List CloseEv)
  | _, [] => .ok []
  | ds, c :: cs =>
    match cursorClose (ds.headD ⟨SQL_SUCCESS, []⟩) c with
    | .error e => .error e
    | .ok (_, evs) =>
      match closeAllCursors ds.tail cs with
      | .error e => .error e
      | .ok evs2 => .ok (evs ++ evs2)

/-- OdbcConnection.close (tdodbc.py lines 293 to 314).  If the handle is
already cleared this is a no-op.  Otherwise: close all cursors; disconnect
with the connection-not-open and invalid-transaction-state SQLSTATEs in the
ignore list; if the returned state list contains invalid-transaction-state,
roll back once and retry the disconnect, both checked without any ignore
list; finally free the connection handle (status unchecked when the free
returns SQL_INVALID_HANDLE), remove the connection from the module list and
clear the handle.  An exception propagates out of close and leaves the
connection state as it stood (the handle in particular stays set). -/
def connClose (d : CloseDriver) (s : ConnState) :
    Except DatabaseError (ConnState × List CloseEv) :=
  if s.hDbc then
    match closeAllCursors d.cursorFree s.cursors with
    | .error e => .error e
    | .ok cevs =>
      match checkStatus d.disconnect1.rc d.disconnect1.info
          [SQL_STATE_CONNECTION_NOT_OPEN, SQL_STATE_INVALID_TRANSACTION_STATE] with
      | .error e => .error e
      | .ok sqlState =>
        let step2 : Except DatabaseError (List CloseEv) :=
          if SQL_STATE_INVALID_TRANSACTION_STATE ∈ sqlState then
            match checkStatus d.rollback.rc d.rollback.info [] with
            | .error e => .error e
            | .ok _ =>
              match checkStatus d.disconnect2.rc d.disconnect2.info [] with
              | .error e => .error e
              | .ok _ => .ok [CloseEv.rollbackCall, CloseEv.disconnectCall]
          else .ok []
        match step2 with
        | .error e => .error e
        | .ok evs2 =>
          let freeStep : Except DatabaseError Unit :=
            if d.freeHandle.rc = SQL_INVALID_HANDLE then .ok ()
            else
              match checkStatus d.freeHandle.rc d.freeHandle.info [] with
              | .error e => .error e
              | .ok _ => .ok ()
          match freeStep with
          | .error e => .error e
          | .ok _ =>
            .ok (⟨false, s.sessionno, [], false⟩,
              cevs ++ CloseEv.disconnectCall :: (evs2 ++ [CloseEv.freeHandleCall]))
  else .ok (s, [])

/-- Driver responses consumed by the close path of the C6 counterexample:
the first disconnect leaves an invalid-transaction-state record, the
rollback succeeds, and the retried disconnect reports connection-not-open,
which is not in any ignore list on the retry. -/
def c6Driver : CloseDriver :=
  ⟨[], ⟨SQL_ERROR, [⟨"25000", "tx open", 1⟩]⟩, ⟨SQL_SUCCESS, []⟩,
    ⟨SQL_ERROR, [⟨"08003", "not open", 2⟩]⟩, ⟨SQL_SUCCESS, []⟩⟩

/-- An open connection with no cursors, session 7. -/
def c6State : ConnState := ⟨true, 7, [], true⟩

/-- The driver responses consumed by the post-handshake setup path of
OdbcConnection (tdodbc.py lines 277 to 291): the autocommit attribute call,
the SELECT SESSION result, the query-band statement result, the setup
commit, and the responses the close path would consume on failure. -/
structure SetupDriver where
  setAutocommit : CallResult
  selectSession : Except DatabaseError Nat
  queryBand : Except DatabaseError Unit
  commitR : CallResult
  closeD : CloseDriver
deriving Repr

/-- The body of the try block of OdbcConnection (tdodbc.py lines 277 to
288): set autocommit, then for the Teradata database type run SELECT
SESSION, optionally set query bands, and commit the setup transaction. -/
def setupStep (d : SetupDriver) (dbType : String) (hasQueryBands : Bool) :
    Except DatabaseError Nat :=
  match checkStatus d.setAutocommit.rc d.setAutocommit.info [] with
  | .error e => .error e
  | .ok _ =>
    if dbType = "Teradata" then
      match d.selectSession with
      | .error e => .error e
      | .ok sess =>
        match (if hasQueryBands then d.queryBand else .ok ()) with
        | .error e => .error e
        | .ok _ =>
          match checkStatus d.commitR.rc d.commitR.info [] with
          | .error e => .error e
          | .ok _ => .ok sess
    else .ok 0

/-- The setup phase with its exception handler (tdodbc.py lines 289 to
291): on failure, self.close() runs before the error is re-raised; if close
itself raises, that error replaces the original one and the state is
whatever close left behind.  Result: the propagated outcome, the final
connection state, and whether close was invoked. -/
def connectionSetup (d : SetupDriver) (dbType : String) (hasQueryBands : Bool)
    (s : ConnState) : Except DatabaseError Unit × ConnState × Bool :=
  match setupStep d dbType hasQueryBands with
  | .ok sess => (.ok (), ⟨s.hDbc, sess, s.cursors, s.inConnections⟩, false)
  | .error e =>
    match connClose d.closeD s with
    | .ok (s2, _) => (.error e, s2, true)
    | .error e2 => (.error e2, s, true)

/-- C9 counterexample driver: the setup commit fails, and during the
resulting close the disconnect itself fails with a non-ignored state. -/
def c9SetupDriver : SetupDriver :=
  ⟨⟨SQL_SUCCESS, []⟩, .ok 7, .ok (), ⟨SQL_ERROR, [⟨"HY000", "commit failed", 3⟩]⟩,
    ⟨[], ⟨SQL_ERROR, [⟨"HY000", "disconnect failed", 4⟩]⟩, ⟨SQL_SUCCESS, []⟩,
      ⟨SQL_SUCCESS, []⟩, ⟨SQL_SUCCESS, []⟩⟩⟩

/-- A freshly connected connection before setup, session not yet known. -/
def c9State : ConnState := ⟨true, 0, [], true⟩

/-- Close-path responses for the C6 witness: the first disconnect leaves an
invalid-transaction-state record and everything afterwards succeeds. -/
def c6WDriver : CloseDriver :=
  ⟨[], ⟨SQL_ERROR, [⟨"25000", "open tx", 11⟩]⟩, ⟨SQL_SUCCESS, []⟩,
    ⟨SQL_SUCCESS, []⟩, ⟨SQL_SUCCESS, []⟩⟩

/-- Setup responses for the C9 witness: the setup commit fails and the
close path succeeds. -/
def c9WDriver : SetupDriver :=
  ⟨⟨SQL_SUCCESS, []⟩, .ok 5, .ok (), ⟨SQL_ERROR, [⟨"HY001", "oops", 9⟩]⟩,
    ⟨[], ⟨SQL_SUCCESS, []⟩, ⟨SQL_SUCCESS, []⟩, ⟨SQL_SUCCESS, []⟩, ⟨SQL_SUCCESS, []⟩⟩⟩

/-- A decoded column value as produced by rowIterator: the explicit null
marker (Python None), a text value, or a binary value. -/
inductive Value where
  | null
  | str (s : List Nat)
  | bin (b : List Nat)
deriving Repr, DecidableEq

/-- The chunk sequence read by the text continuation loop of rowIterator
(tdodbc.py lines 642 to 648).  Each SQLGetData call fills the shared
working buffer of bufSize character slots with the next bufSize - 1
characters of the remaining data plus a terminator, and the diagnostic
state list contains 01004 exactly while more characters remain than fit;
the loop keeps issuing continuation calls while that is the case and
collects every buffer content read, including the final non-truncated one.
The second guard conjunct records that each call makes progress, which
holds for the working buffer of the source (LARGE_BUFFER_SIZE slots). -/
def contLoop (bufSize : Nat) (rem : List Nat) : List (List Nat) :=
  if h : bufSize - 1 < rem.length ∧ 1 ≤ bufSize - 1 then
    rem.take (bufSize - 1) :: contLoop bufSize (rem.drop (bufSize - 1))
  else
    [rem.take (bufSize - 1)]
termination_by rem.length
decreasing_by
  simp only [List.length_drop]
  omega

/-- The value rowIterator yields for a non-null text column: the chunks of
the continuation loop, concatenated (tdodbc.py line 648).  When the value
fits the working buffer there is a single chunk equal to the value. -/
def readTextColumn (bufSize : Nat) (v : List Nat) : List Nat :=
  (contLoop bufSize v).flatten

/-- One SQLGetData response for a column: the length indicator written by
the driver (SQL_NULL_DATA for a null value) and the buffer content. -/
structure GetDataResp where
  length : Int
  data : List Nat
deriving Repr, DecidableEq

/-- Decoding of one fetched, non-truncated column value in rowIterator
(tdodbc.py lines 630 to 654): a length indicator equal to SQL_NULL_DATA
leaves val as None, the null marker; otherwise a binary column takes the
first length bytes of the buffer and a text column reads the buffer up to
its terminator. -/
def readColumnValue (binary : Bool) (resp : GetDataResp) : Value :=
  if resp.length = SQL_NULL_DATA then Value.null
  else if binary then Value.bin (resp.data.take resp.length.toNat)
  else Value.str (resp.data.takeWhile (fun c => c != 0))

/-- A parameter value supplied to executemany, following the runtime type
dispatch of the per-row bind loop (tdodbc.py lines 439 to 455): an
InOutParam (seed and optional size), an OutParam (optional size), a
bytearray, or a plain scalar converted to text (none being Python None). -/
inductive PParam where
  | scalar (v : Option (List Nat))
  | outP (size : Option Nat)
  | inOutP (seed : List Nat) (size : Option Nat)
  | bin (b : List Nat)
deriving Repr, DecidableEq

/-- Whether a parameter registers an output resolver (tdodbc.py lines 439
to 446): only InOutParam and OutParam call setValueFunc. -/
def isOutKind : PParam → Bool
  | .outP _ => true
  | .inOutP _ _ => true
  | _ => false

/-- State of the per-row bind loop that matters for output resolvers: the
next fresh buffer index and the buffer currently referred to by the local
variable named param of executemany.  Buffers are numbered in allocation
order; the variable holds none when the last value bound was a null scalar
(inputStr of None is None, tdodbc.py line 454). -/
structure BindLoopState where
  nextBuf : Nat
  paramVar : Option Nat
deriving Repr, DecidableEq

/-- One iteration of the bind loop, as far as buffer allocation and the
variable named param are concerned (tdodbc.py lines 436 to 455): every
branch allocates a fresh buffer and assigns it to the variable, except a
null scalar which assigns None. -/
def bindStep (st : BindLoopState) (v : PParam) : BindLoopState :=
  match v with
  | .scalar none => ⟨st.nextBuf, none⟩
  | _ => ⟨st.nextBuf + 1, some st.nextBuf⟩

/-- The buffer index held by the variable named param after the whole row
was bound, which is when the resolvers registered during the loop can first
be called. -/
def finalParamVar (row : List PParam) : Option Nat :=
  (row.foldl bindStep ⟨0, none⟩).paramVar

/-- The buffer allocated for parameter j itself, if any. -/
def ownBuffer (row : List PParam) (j : Nat) : Option Nat :=
  match row.get? j with
  | some (PParam.scalar none) => none
  | some _ => some ((row.take j).foldl bindStep ⟨0, none⟩).nextBuf
  | none => none

/-- The value returned by the resolver registered for parameter j, called
after execution with store giving the post-execution content of every
buffer.  The source registers the closure fun : outputStr(param)
(tdodbc.py lines 442 and 446); the closure captures the local VARIABLE
param of executemany, not its value at registration time, so when it is
called after the loop it decodes whatever buffer the variable last held.
Parameters that registered no resolver give none. -/
def resolveAfter (row : List PParam) (store : Nat → List Nat) (j : Nat) :
    Option (List Nat) :=
  match row.get? j with
  | some v => if isOutKind v then (finalParamVar row).map store else none
  | none => none

/-- Post-execution buffer store for the C8 scenario: the driver wrote the
value 10 into buffer 0 (the in/out parameter) and 20 into buffer 1 (the
output parameter). -/
def c8Store : Nat → List Nat := fun i => if i = 0 then [10] else [20]

/-- The C8 parameter row: one input/output parameter seeded with 65 and one
output parameter, as in a callproc with one in/out and one out argument. -/
def c8Row : List PParam := [PParam.inOutP [65] none, PParam.outP none]

/-- Native calls issued by executemany, by kind, tagged with the row and
parameter ordinal where applicable. -/
inductive ExEv where
  | prepareCall
  | numParamsCall
  | describeParam (j : Nat)
  | setStmtAttr
  | bindParam (row j : Nat)
  | bindArray (j : Nat)
  | executeCall (row : Nat)
  | executeBatch
deriving Repr, DecidableEq

/-- The PARAMS_MISMATCH InterfaceError of executemany (tdodbc.py lines 430
and 503). -/
def paramsMismatchError (supplied expected : Nat) : InterfaceError :=
  ⟨"PARAMS_MISMATCH",
    "The number of supplied parameters (" ++ toString supplied ++
      ") does not match the expected number of parameters (" ++
      toString expected ++ ")."⟩

/-- The per-row loop of executemany (tdodbc.py lines 426 to 473): for each
row, first compare its length with the prepared parameter count and raise
before any bind; otherwise bind every ordinal and execute, then move to the
next row.  Returns the native calls issued and the error, if any. -/
def perRowLoop (numParams : Nat) : List (List PParam) → Nat →
    List ExEv × Option InterfaceError
  | [], _ => ([], none)
  | p :: rest, rowIdx =>
    if p.length ≠ numParams then
      ([], some (paramsMismatchError p.length numParams))
    else
      let binds := (List.range numParams).map (fun j => ExEv.bindParam rowIdx j)
      let r := perRowLoop numParams rest (rowIdx + 1)
      (binds ++ ExEv.executeCall rowIdx :: r.1, r.2)

/-- executemany in per-row mode (tdodbc.py lines 397 to 473): prepare,
count parameters, describe each parameter, set the parameter-set size to
one, then run the per-row loop. -/
def executeManyPerRow (numParams : Nat) (rows : List (List PParam)) :
    List ExEv × Option InterfaceError :=
  let hdr := ExEv.prepareCall :: ExEv.numParamsCall ::
    ((List.range numParams).map ExEv.describeParam ++ [ExEv.setStmtAttr])
  let r := perRowLoop numParams rows 0
  (hdr ++ r.1, r.2)

/-- The validation loop of the columnar batch (tdodbc.py lines 499 to 503):
the length of the first row disagreeing with the prepared parameter count,
if any. -/
def findMismatch (numParams : Nat) : List (List PParam) → Option Nat
  | [] => none
  | p :: rest =>
    if p.length ≠ numParams then some p.length else findMismatch numParams rest

/-- executemany in columnar batch mode, call-trace view (tdodbc.py lines
477 to 555): prepare, count parameters, describe each parameter, two
statement-attribute calls (bind type and parameter-set size), then validate
every row before any bind; on success one array bind per ordinal followed
by a single execute. -/
def executeManyBatchEvents (numParams : Nat) (rows : List (List PParam)) :
    List ExEv × Option InterfaceError :=
  let hdr := ExEv.prepareCall :: ExEv.numParamsCall ::
    ((List.range numParams).map ExEv.describeParam ++
      [ExEv.setStmtAttr, ExEv.setStmtAttr])
  match findMismatch numParams rows with
  | some supplied => (hdr, some (paramsMismatchError supplied numParams))
  | none =>
    (hdr ++ (List.range numParams).map ExEv.bindArray ++ [ExEv.executeBatch], none)

/-- An input parameter value for the value-level executemany model: Python
None, a text scalar (the converted byte/character list, no terminator), or
a bytearray.  Output parameters take a separate path modelled for C8. -/
inductive InVal where
  | null
  | text (s : List Nat)
  | bin (b : List Nat)
deriving Repr, DecidableEq

/-- Whether a value is a bytearray (the isinstance checks of tdodbc.py
lines 447 and 513). -/
def isBinVal : InVal → Bool
  | .bin _ => true
  | _ => false

/-- Length of the converted value (tdodbc.py lines 516 to 523): byte length
for a bytearray, converted length for text, 0 for None. -/
def convertLen : InVal → Nat
  | .null => 0
  | .text s => s.length
  | .bin b => b.length

/-- Whether the per-row bind loop uses the binary element type at ordinal
j: valueType is initialised once per ROW (tdodbc.py line 433) and switched
to SQL_C_BINARY when a bytearray is met (line 451), never switched back
within the row, so it is sticky for all later ordinals of that row. -/
def stickyBin (row : List InVal) (j : Nat) : Bool :=
  (row.take (j + 1)).any isBinVal

/-- Value stored by the database for one cell bound in per-row mode.
Modelled from the spec: the native execute semantics at the call boundary
of spec section 6 (the server itself is not part of the source).  A None
parameter is bound with the SQL_NULL_DATA length and stores NULL (tdodbc.py
line 466); a bytearray is bound with the binary element type and its exact
byte length (lines 447 to 452, 458 to 460) and stores its bytes; a text
value is bound as a buffer holding the converted bytes plus a terminator
with the SQL_NTS length (lines 454, 461 to 463), so the driver reads it up
to the first terminator.  A text value bound while the row element type is
stuck on binary is read as bytes up to the terminator (driver-specific; the
equivalence hypothesis excludes the case). -/
def decodeCellPerRow (sticky : Bool) : InVal → Value
  | .null => Value.null
  | .bin b => Value.bin b
  | .text s =>
    if sticky then Value.bin (s.takeWhile (fun c => c != 0))
    else Value.str (s.takeWhile (fun c => c != 0))

/-- Table contents produced by N sequential per-row bind-and-execute
iterations (tdodbc.py lines 426 to 473): one stored row per parameter
row. -/
def perRowTable (rows : List (List InVal)) : List (List Value) :=
  rows.map (fun p => (List.range p.length).map
    (fun j => decodeCellPerRow (stickyBin p j) (p.getD j InVal.null)))

/-- Whether the columnar binder uses the binary element type for ordinal j:
a bytearray in any row of the column switches the whole column to
SQL_C_BINARY (tdodbc.py lines 513 to 515). -/
def colIsBin (rows : List (List InVal)) (j : Nat) : Bool :=
  rows.any (fun p => isBinVal (p.getD j InVal.null))

/-- The maximum converted length over a column (tdodbc.py lines 510 to
523). -/
def colMaxLen (rows : List (List InVal)) (j : Nat) : Nat :=
  rows.foldl (fun m p => max m (convertLen (p.getD j InVal.null))) 0

/-- Stride of one row slice inside the column array: maxLen slots for a
binary column, maxLen plus one terminator slot for a text column (tdodbc.py
lines 526 to 532, where maxLen is incremented before allocation in the text
case). -/
def colStride (isB : Bool) (maxLen : Nat) : Nat :=
  if isB then maxLen else maxLen + 1

/-- The slice of the zero-initialised column array written for one row
(tdodbc.py lines 534 to 547): the value bytes left-aligned at offset row
times stride, followed for a text column by one terminator slot, and for a
None cell by a terminator slot at the start of the slice.  Each row writes
only within its own stride-sized slice (the value always fits by the maxLen
computation), so the whole array is the concatenation of these segments.  A
None cell in a binary column of stride 0 would write its terminator outside
the zero-length array, an IndexError in the source; columnarTable reports
that case separately. -/
def colSegment (isB : Bool) (stride : Nat) : InVal → List Nat
  | .null => List.replicate stride 0
  | .bin b => b ++ List.replicate (stride - b.length) 0
  | .text s =>
    if isB then s ++ List.replicate (stride - s.length) 0
    else s ++ 0 :: List.replicate (stride - s.length - 1) 0

/-- The full column array bound by SQLBindParameter in batch mode: the
concatenation of the per-row segments. -/
def colArray (isB : Bool) (stride : Nat) (col : List InVal) : List Nat :=
  (col.map (colSegment isB stride)).flatten

/-- The length-array entry recorded for one cell (tdodbc.py lines 536 to
547): SQL_NULL_DATA for None, the byte length for a binary column, SQL_NTS
for a text column. -/
def colLenEntry (isB : Bool) : InVal → Int
  | .null => SQL_NULL_DATA
  | v => if isB then (convertLen v : Int) else SQL_NTS

/-- Value stored by the database for row r of one columnar-bound ordinal.
Modelled from the spec: the native execute semantics at the call boundary
of spec section 6.  The driver reads the slice of the column array at
offset r times stride using the length-array entry for row r: SQL_NULL_DATA
stores NULL; a binary column stores the first length bytes of the slice; a
text column (entry SQL_NTS) reads the slice up to the first terminator. -/
def decodeColCell (isB : Bool) (stride : Nat) (arr : List Nat) (r : Nat) :
    InVal → Value
  | .null => Value.null
  | v =>
    if isB then Value.bin ((arr.drop (r * stride)).take (convertLen v))
    else Value.str ((arr.drop (r * stride)).takeWhile (fun c => c != 0))

/-- The columnar writer crashes with an IndexError when a binary column has
stride 0 (every cell of the column converts to zero length) and contains a
None cell: the terminator write of the None cell indexes a zero-length
array (tdodbc.py line 547). -/
def columnarCrash (rows : List (List InVal)) (numParams : Nat) : Bool :=
  (List.range numParams).any (fun j =>
    colIsBin rows j && colMaxLen rows j == 0 &&
      rows.any (fun p => p.getD j InVal.null == InVal.null))

/-- Table contents produced by one columnar batched execution (tdodbc.py
lines 477 to 555) over rows that all match the prepared parameter count:
none when the writer crashes, otherwise the decoded cell of every ordinal
for each of the rows bound with parameter-set size equal to the row
count. -/
def columnarTable (rows : List (List InVal)) (numParams : Nat) :
    Option (List (List Value)) :=
  if columnarCrash rows numParams then none
  else some ((List.range rows.length).map (fun r =>
    (List.range numParams).map (fun j =>
      decodeColCell (colIsBin rows j)
        (colStride (colIsBin rows j) (colMaxLen rows j))
        (colArray (colIsBin rows j)
          (colStride (colIsBin rows j) (colMaxLen rows j))
          (rows.map (fun p => p.getD j InVal.null)))
        r ((rows.getD r []).getD j InVal.null))))

/-- The C5 counterexample rows: one binary row and one text row in the same
single-parameter statement. -/
def c5Rows : List (List InVal) := [[InVal.bin [97]], [InVal.text [98]]]

end PyTd

namespace PyTd

theorem checkStatusScan_swi (ignore : List String) :
    ∀ (l : List DiagRec) (acc : List String),
      ∃ out, checkStatusScan SQL_SUCCESS_WITH_INFO ignore l acc = .ok out := by
  intro l
  induction l with
  | nil => intro acc; exact ⟨acc.reverse, rfl⟩
  | cons r rest ih =>
    intro acc
    simpa [checkStatusScan] using ih (r.state :: acc)

/-- C1: checkStatus never raises for SQL_SUCCESS, SQL_SUCCESS_WITH_INFO or
SQL_NO_DATA.  For any other return code: with zero diagnostic records it
does not raise; if every record state is in the ignore set it does not
raise; any raised DatabaseError carries the native code, formatted message
and SQLSTATE of one of the diagnostic records; the first record whose state
is in the ignore set stops the scan without raising (so a later non-ignored
record never causes a raise); and if the first record is not ignored the
scan raises with exactly that record. -/
theorem C1_checkStatus (rc : Int) (info : List DiagRec) (ignore : List String) :
    ((rc = SQL_SUCCESS ∨ rc = SQL_SUCCESS_WITH_INFO ∨ rc = SQL_NO_DATA) →
        ∃ l, checkStatus rc info ignore = .ok l)
    ∧ (rc ≠ SQL_SUCCESS → rc ≠ SQL_SUCCESS_WITH_INFO → rc ≠ SQL_NO_DATA →
        (info = [] → checkStatus rc info ignore = .ok [])
        ∧ ((∀ r ∈ info, r.state ∈ ignore) → ∃ l, checkStatus rc info ignore = .ok l)
        ∧ (∀ e, checkStatus rc info ignore = .error e → ∃ r ∈ info, e = mkDatabaseError r)
        ∧ (∀ r rest, info = r :: rest → r.state ∈ ignore →
            checkStatus rc info ignore = .ok [r.state])
        ∧ (∀ r rest, info = r :: rest → r.state ∉ ignore →
            checkStatus rc info ignore = .error (mkDatabaseError r))) := by
  constructor
  · rintro (h | h | h)
    · exact ⟨[], by simp [checkStatus, h]⟩
    · subst h
      rcases checkStatusScan_swi ignore info [] with ⟨out, hout⟩
      by_cases h0 : SQL_SUCCESS_WITH_INFO = SQL_SUCCESS ∨ SQL_SUCCESS_WITH_INFO = SQL_NO_DATA
      · exact ⟨[], by simp [checkStatus, h0]⟩
      · exact ⟨out, by simpa [checkStatus, h0] using hout⟩
    · exact ⟨[], by simp [checkStatus, h]⟩
  · intro h1 h2 h3
    have hnot : ¬(rc = SQL_SUCCESS ∨ rc = SQL_NO_DATA) := by
      rintro (h | h) <;> [exact h1 h; exact h3 h]
    refine ⟨?_, ?_, ?_, ?_, ?_⟩
    · intro h; subst h; simp [checkStatus, hnot, checkStatusScan]
    · intro hall
      cases info with
      | nil => exact ⟨[], by simp [checkStatus, hnot, checkStatusScan]⟩
      | cons r rest =>
        refine ⟨[r.state], ?_⟩
        have hr : r.state ∈ ignore := hall r (by simp)
        simp [checkStatus, hnot, checkStatusScan, h2, hr]
    · intro e he
      cases info with
      | nil => simp [checkStatus, hnot, checkStatusScan] at he
      | cons r rest =>
        by_cases hr : r.state ∈ ignore
        · simp [checkStatus, hnot, checkStatusScan, h2, hr] at he
        · refine ⟨r, by simp, ?_⟩
          simp [checkStatus, hnot, checkStatusScan, h2, hr] at he
          exact he.symm
    · intro r rest hinfo hr
      subst hinfo
      simp [checkStatus, hnot, checkStatusScan, h2, hr]
    · intro r rest hinfo hr
      subst hinfo
      simp [checkStatus, hnot, checkStatusScan, h2, hr]

/-- C1 witness: with rc set to SQL_ERROR and a single non-ignored HY000
record, checkStatus raises the DatabaseError built from that record. -/
theorem C1_checkStatus_witness :
    checkStatus SQL_ERROR [⟨"HY000", "boom", 7⟩] [] =
      .error (mkDatabaseError ⟨"HY000", "boom", 7⟩) :=
  ((C1_checkStatus SQL_ERROR [⟨"HY000", "boom", 7⟩] []).2
    (by decide) (by decide) (by decide)).2.2.2.2 ⟨"HY000", "boom", 7⟩ [] rfl
    (by simp)

/-- C10 counterexample: under a primitive-response sequence whose reported
required length keeps growing, the first record is retried twice (not at
most once) before its message is accepted. -/
theorem C10_counterexample :
    ∃ out, getDiagnosticInfo c10Oracle 10 = some (.ok out) ∧
      ¬(∀ p ∈ out, p.2 ≤ 1) :=
  ⟨[(⟨"HY000", "m", 1⟩, 2)], by rfl, by decide⟩

theorem getDiagLoop_step_resize (oracle : Nat → Nat → DiagResponse)
    (i b retries : Nat) (acc : List (DiagRec × Nat)) (fuel : Nat)
    (h1 : (oracle i b).rc = SQL_SUCCESS_WITH_INFO) (h2 : b < (oracle i b).msgLen) :
    getDiagLoop oracle i b retries acc (fuel + 1) =
      getDiagLoop oracle i (oracle i b).msgLen (retries + 1) acc fuel := by
  simp only [getDiagLoop]
  rw [if_pos ⟨h1, h2⟩]

theorem getDiagLoop_step_accept (oracle : Nat → Nat → DiagResponse)
    (i b retries : Nat) (acc : List (DiagRec × Nat)) (fuel : Nat)
    (h : (oracle i b).rc = SQL_SUCCESS) :
    getDiagLoop oracle i b retries acc (fuel + 1) =
      getDiagLoop oracle (i + 1) b 0
        ((⟨(oracle i b).state, (oracle i b).message, (oracle i b).native.natAbs⟩,
            retries) :: acc) fuel := by
  simp only [getDiagLoop]
  rw [if_neg (by rw [h]; simp [SQL_SUCCESS, SQL_SUCCESS_WITH_INFO]),
    if_pos (Or.inl h)]

theorem getDiagLoop_step_noData (oracle : Nat → Nat → DiagResponse)
    (i b retries : Nat) (acc : List (DiagRec × Nat)) (fuel : Nat)
    (h : (oracle i b).rc = SQL_NO_DATA) :
    getDiagLoop oracle i b retries acc (fuel + 1) = some (.ok acc.reverse) := by
  simp only [getDiagLoop]
  rw [if_neg (by rw [h]; simp [SQL_NO_DATA, SQL_SUCCESS_WITH_INFO]),
    if_neg (by rw [h]; simp [SQL_NO_DATA, SQL_SUCCESS, SQL_SUCCESS_WITH_INFO]),
    if_pos h]

theorem getDiagLoop_wellBehaved (rest : List DiagSpec) :
    ∀ (oracle : Nat → Nat → DiagResponse) (i b : Nat)
      (acc : List (DiagRec × Nat)) (fuel : Nat),
      2 * rest.length + 1 ≤ fuel →
      (∀ k b', oracle (i + k) b' = mkDiagResponse (rest.get? k) b') →
      ∃ out, getDiagLoop oracle i b 0 acc fuel = some (.ok (acc.reverse ++ out))
        ∧ out.map Prod.fst = rest.map (fun sp => sp.record)
        ∧ ∀ p ∈ out, p.2 ≤ 1 := by
  induction rest with
  | nil =>
    intro oracle i b acc fuel hfuel H
    obtain ⟨f, rfl⟩ : ∃ f, fuel = f + 1 := ⟨fuel - 1, by omega⟩
    have h0 : oracle i b = ⟨SQL_NO_DATA, "", "", 0, 0⟩ := by
      have := H 0 b
      simpa [mkDiagResponse] using this
    refine ⟨[], ?_, by simp, by simp⟩
    rw [getDiagLoop_step_noData oracle i b 0 acc f (by rw [h0])]
    simp
  | cons sp rest' ih =>
    intro oracle i b acc fuel hfuel H
    simp only [List.length_cons] at hfuel
    obtain ⟨f, rfl⟩ : ∃ f, fuel = f + 1 := ⟨fuel - 1, by omega⟩
    have h0 : oracle i b = mkDiagResponse (some sp) b := by
      have := H 0 b
      simpa using this
    have H' : ∀ k b', oracle (i + 1 + k) b' = mkDiagResponse (rest'.get? k) b' := by
      intro k b'
      have := H (k + 1) b'
      have harith : i + (k + 1) = i + 1 + k := by omega
      rw [harith] at this
      simpa using this
    by_cases hb : b < sp.reqLen
    · -- first call reports a too-small buffer; resize to the reported
      -- length and retry the same index, after which the record is accepted
      have hresp : oracle i b =
          ⟨SQL_SUCCESS_WITH_INFO, sp.record.state, sp.record.message,
            (sp.record.native : Int), sp.reqLen⟩ := by
        rw [h0]; simp [mkDiagResponse, hb]
      have hresp2 : oracle i sp.reqLen =
          ⟨SQL_SUCCESS, sp.record.state, sp.record.message,
            (sp.record.native : Int), sp.reqLen⟩ := by
        have h2 := H 0 sp.reqLen
        rw [Nat.add_zero] at h2
        rw [h2]
        simp [mkDiagResponse]
      obtain ⟨f', rfl⟩ : ∃ f', f = f' + 1 := ⟨f - 1, by omega⟩
      obtain ⟨out, hloop, hmap, hret⟩ :=
        ih oracle (i + 1) sp.reqLen ((sp.record, 1) :: acc) f' (by omega) H'
      refine ⟨(sp.record, 1) :: out, ?_, by simpa using hmap, ?_⟩
      · have e1 : getDiagLoop oracle i b 0 acc (f' + 1 + 1) =
            getDiagLoop oracle i sp.reqLen 1 acc (f' + 1) := by
          have e := getDiagLoop_step_resize oracle i b 0 acc (f' + 1)
            (by rw [hresp]) (by rw [hresp]; exact hb)
          rw [hresp] at e
          simpa using e
        have e2 : getDiagLoop oracle i sp.reqLen 1 acc (f' + 1) =
            getDiagLoop oracle (i + 1) sp.reqLen 0 ((sp.record, 1) :: acc) f' := by
          have e := getDiagLoop_step_accept oracle i sp.reqLen 1 acc f'
            (by rw [hresp2])
          rw [hresp2] at e
          simpa using e
        rw [e1, e2, hloop]
        simp
      · intro p hp
        rcases List.mem_cons.mp hp with rfl | hp
        · simp
        · exact hret p hp
    · -- the buffer already fits; the record is accepted without a retry
      have hresp : oracle i b =
          ⟨SQL_SUCCESS, sp.record.state, sp.record.message,
            (sp.record.native : Int), sp.reqLen⟩ := by
        rw [h0]; simp [mkDiagResponse, hb]
      obtain ⟨out, hloop, hmap, hret⟩ :=
        ih oracle (i + 1) b ((sp.record, 0) :: acc) f (by omega) H'
      refine ⟨(sp.record, 0) :: out, ?_, by simpa using hmap, ?_⟩
      · have e : getDiagLoop oracle i b 0 acc (f + 1) =
            getDiagLoop oracle (i + 1) b 0 ((sp.record, 0) :: acc) f := by
          have e := getDiagLoop_step_accept oracle i b 0 acc f (by rw [hresp])
          rw [hresp] at e
          simpa using e
        rw [e, hloop]
        simp
      · intro p hp
        rcases List.mem_cons.mp hp with rfl | hp
        · simp
        · exact hret p hp

/-- C10 amended: when the record-retrieval primitive reports a too-small
message buffer, getDiagnosticInfo resizes the buffer to the exact reported
length and retries the same record index, repeating the resize as long as
too-small is reported.  For every well-behaved primitive, one whose records
each have a fixed required length that is reported while the buffer is
smaller and satisfied once the buffer reaches it, every record is retried at
most once before its message is accepted, no record is skipped (the scan
returns exactly the record list in order), and the whole scan terminates
within fuel 2 n + 1 for n records. -/
theorem C10_getDiagnosticInfo_wellBehaved (recs : List DiagSpec) :
    ∃ out, getDiagnosticInfo (mkOracle recs) (2 * recs.length + 1) = some (.ok out)
      ∧ out.map Prod.fst = recs.map (fun sp => sp.record)
      ∧ ∀ p ∈ out, p.2 ≤ 1 := by
  have H : ∀ k b', mkOracle recs (1 + k) b' = mkDiagResponse (recs.get? k) b' := by
    intro k b'
    simp [mkOracle, Nat.add_sub_cancel_left]
  obtain ⟨out, h1, h2, h3⟩ :=
    getDiagLoop_wellBehaved recs (mkOracle recs) 1 SMALL_BUFFER_SIZE []
      (2 * recs.length + 1) (le_refl _) H
  exact ⟨out, by simpa [getDiagnosticInfo] using h1, h2, h3⟩

/-- C6 counterexample: when the retried disconnect after the rollback
reports connection-not-open, close raises (the ignore list applies only to
the first disconnect), so a connection-not-open diagnostic observed during
close can cause close to raise. -/
theorem C6_counterexample :
    connClose c6Driver c6State = .error ⟨2, "[08003] not open", "08003"⟩ := by
  rfl

/-- C6 amended: for an open cursor-free connection whose first disconnect
attempt fails leaving an invalid-transaction-state record, when the
rollback, retried disconnect and handle free succeed, close completes with
exactly one rollback call between the two disconnect calls; and a
connection-not-open record on the first disconnect attempt is ignored, so
close completes without rollback (on the retried disconnect the state is
not ignored and raises, as the counterexample shows). -/
theorem C6_close_recovery (d : CloseDriver) (s : ConnState)
    (hOpen : s.hDbc = true) (hCur : s.cursors = []) :
    (∀ r rest, d.disconnect1.rc = SQL_ERROR →
      d.disconnect1.info = r :: rest →
      r.state = SQL_STATE_INVALID_TRANSACTION_STATE →
      d.rollback.rc = SQL_SUCCESS → d.disconnect2.rc = SQL_SUCCESS →
      d.freeHandle.rc = SQL_SUCCESS →
      connClose d s = .ok (⟨false, s.sessionno, [], false⟩,
        [CloseEv.disconnectCall, CloseEv.rollbackCall, CloseEv.disconnectCall,
          CloseEv.freeHandleCall]))
    ∧ (∀ r rest, d.disconnect1.rc = SQL_ERROR →
      d.disconnect1.info = r :: rest →
      r.state = SQL_STATE_CONNECTION_NOT_OPEN →
      d.freeHandle.rc = SQL_SUCCESS →
      connClose d s = .ok (⟨false, s.sessionno, [], false⟩,
        [CloseEv.disconnectCall, CloseEv.freeHandleCall])) := by
  constructor
  · intro r rest h1 h2 h3 h4 h5 h6
    simp [connClose, hOpen, hCur, closeAllCursors, checkStatus, checkStatusScan,
      h1, h2, h3, h4, h5, h6, SQL_SUCCESS, SQL_ERROR, SQL_SUCCESS_WITH_INFO,
      SQL_NO_DATA, SQL_INVALID_HANDLE, SQL_STATE_CONNECTION_NOT_OPEN,
      SQL_STATE_INVALID_TRANSACTION_STATE]
  · intro r rest h1 h2 h3 h4
    simp [connClose, hOpen, hCur, closeAllCursors, checkStatus, checkStatusScan,
      h1, h2, h3, h4, SQL_SUCCESS, SQL_ERROR, SQL_SUCCESS_WITH_INFO,
      SQL_NO_DATA, SQL_INVALID_HANDLE, SQL_STATE_CONNECTION_NOT_OPEN,
      SQL_STATE_INVALID_TRANSACTION_STATE]

/-- C6 witness: a concrete open connection whose first disconnect leaves an
invalid-transaction-state record closes with exactly one rollback between
the two disconnect calls. -/
theorem C6_close_recovery_witness :
    connClose c6WDriver ⟨true, 3, [], true⟩ = .ok (⟨false, 3, [], false⟩,
      [CloseEv.disconnectCall, CloseEv.rollbackCall, CloseEv.disconnectCall,
        CloseEv.freeHandleCall]) :=
  (C6_close_recovery c6WDriver ⟨true, 3, [], true⟩ rfl rfl).1
    ⟨"25000", "open tx", 11⟩ [] rfl rfl rfl rfl rfl rfl

/-- C7: a second close after a completed close is a no-op for both a
Connection and a Cursor: no native calls (the empty event list), the state
unchanged, and no exception. -/
theorem C7_close_idempotent (d : CloseDriver) (dc : CallResult)
    (s : ConnState) (c : CursorState)
    (hs : s.hDbc = false) (hc : c.hStmt = false) :
    connClose d s = .ok (s, []) ∧ cursorClose dc c = .ok (c, []) := by
  constructor
  · simp [connClose, hs]
  · simp [cursorClose, hc]

/-- C7 witness: a closed connection and a closed cursor under a concrete
driver. -/
theorem C7_close_idempotent_witness :
    connClose ⟨[], ⟨SQL_SUCCESS, []⟩, ⟨SQL_SUCCESS, []⟩, ⟨SQL_SUCCESS, []⟩,
        ⟨SQL_SUCCESS, []⟩⟩ ⟨false, 7, [], false⟩ = .ok (⟨false, 7, [], false⟩, [])
    ∧ cursorClose ⟨SQL_SUCCESS, []⟩ ⟨false⟩ = .ok (⟨false⟩, []) :=
  C7_close_idempotent _ _ ⟨false, 7, [], false⟩ ⟨false⟩ rfl rfl

theorem connClose_ok_hDbc (d : CloseDriver) (s s2 : ConnState) (evs : List CloseEv)
    (h : connClose d s = .ok (s2, evs)) : s2.hDbc = false := by
  by_cases hs : s.hDbc = true
  · simp only [connClose, hs, if_true] at h
    split at h
    · exact absurd h (by simp)
    · split at h
      · exact absurd h (by simp)
      · split at h
        · exact absurd h (by simp)
        · split at h
          · exact absurd h (by simp)
          · simp only [Except.ok.injEq, Prod.mk.injEq] at h
            rw [← h.1]
  · simp only [connClose, hs, if_false, Bool.not_eq_true] at h
    have hs2 : s.hDbc = false := by
      revert hs; cases s.hDbc <;> simp
    simp only [hs2, if_false, Bool.false_eq_true, Except.ok.injEq,
      Prod.mk.injEq] at h
    rw [← h.1, hs2]

/-- C9 counterexample: the setup commit fails and the close attempted by
the exception handler itself fails on its disconnect, so an error
propagates to the caller while the connection handle is still open. -/
theorem C9_counterexample :
    (connectionSetup c9SetupDriver "Teradata" false c9State).2.1.hDbc = true ∧
    (connectionSetup c9SetupDriver "Teradata" false c9State).1 =
      .error ⟨4, "[HY000] disconnect failed", "HY000"⟩ :=
  ⟨rfl, rfl⟩

/-- C9 amended: for every failure of the post-handshake setup path
(autocommit attribute, session query, query-band setup, setup commit), the
close procedure is invoked before the error propagates; and whenever that
close completes, the original setup error is the one propagated and the
connection handle is no longer open. -/
theorem C9_setup_failure_closes (d : SetupDriver) (dbType : String)
    (hasQueryBands : Bool) (s : ConnState) (e : DatabaseError)
    (hfail : setupStep d dbType hasQueryBands = .error e) :
    (connectionSetup d dbType hasQueryBands s).2.2 = true
    ∧ (∀ s2 evs, connClose d.closeD s = .ok (s2, evs) →
        (connectionSetup d dbType hasQueryBands s).1 = .error e
        ∧ (connectionSetup d dbType hasQueryBands s).2.1.hDbc = false) := by
  constructor
  · unfold connectionSetup
    rw [hfail]
    cases hclose : connClose d.closeD s with
    | ok p => cases p; simp
    | error e2 => simp
  · intro s2 evs hok
    unfold connectionSetup
    rw [hfail, hok]
    exact ⟨rfl, connClose_ok_hDbc d.closeD s s2 evs hok⟩

/-- C9 witness: a concrete failing setup commit with a benign close: close
was invoked, the commit error propagates, and the handle is closed. -/
theorem C9_setup_failure_witness :
    (connectionSetup c9WDriver "Teradata" false ⟨true, 0, [], true⟩).2.2 = true ∧
    (connectionSetup c9WDriver "Teradata" false ⟨true, 0, [], true⟩).1 =
      .error ⟨9, "[HY001] oops", "HY001"⟩ ∧
    (connectionSetup c9WDriver "Teradata" false ⟨true, 0, [], true⟩).2.1.hDbc = false := by
  have h := C9_setup_failure_closes c9WDriver "Teradata" false ⟨true, 0, [], true⟩
    ⟨9, "[HY001] oops", "HY001"⟩ (by rfl)
  have h2 := h.2 ⟨false, 0, [], false⟩ [CloseEv.disconnectCall, CloseEv.freeHandleCall]
    (by rfl)
  exact ⟨h.1, h2.1, h2.2⟩

theorem contLoop_join (bufSize : Nat) (hbuf : 1 < bufSize) :
    ∀ (n : Nat) (rem : List Nat), rem.length ≤ n →
      (contLoop bufSize rem).flatten = rem := by
  intro n
  induction n with
  | zero =>
    intro rem h
    have hnil : rem = [] := List.length_eq_zero.mp (Nat.le_zero.mp h)
    subst hnil
    rw [contLoop]
    simp
  | succ n ih =>
    intro rem h
    rw [contLoop]
    split
    · next hcond =>
      have hdrop : (rem.drop (bufSize - 1)).length ≤ n := by
        simp only [List.length_drop]
        omega
      simp only [List.flatten_cons]
      rw [ih (rem.drop (bufSize - 1)) hdrop]
      exact List.take_append_drop _ rem
    · next hcond =>
      have hle : rem.length ≤ bufSize - 1 := by omega
      simp [List.take_of_length_le hle]

theorem contLoop_length_pos (bufSize : Nat) (rem : List Nat) :
    1 ≤ (contLoop bufSize rem).length := by
  rw [contLoop]
  split <;> simp

/-- C3: for every text column value strictly longer than the fixed working
buffer, the continuation mode of the row iterator (repeated get-data calls
accumulating each buffer content until truncation is no longer reported,
then concatenating the chunks) yields exactly the original value, and at
least two get-data calls were made. -/
theorem C3_text_roundTrip (v : List Nat) (hlong : LARGE_BUFFER_SIZE < v.length) :
    2 ≤ (contLoop LARGE_BUFFER_SIZE v).length ∧
      readTextColumn LARGE_BUFFER_SIZE v = v := by
  have hbuf : 1 < LARGE_BUFFER_SIZE := by norm_num [LARGE_BUFFER_SIZE]
  constructor
  · rw [contLoop]
    rw [dif_pos ⟨by omega, by omega⟩]
    have := contLoop_length_pos LARGE_BUFFER_SIZE (v.drop (LARGE_BUFFER_SIZE - 1))
    simp only [List.length_cons]
    omega
  · exact contLoop_join LARGE_BUFFER_SIZE hbuf v.length v (le_refl _)

/-- C3 witness: a value one character longer than the working buffer is
reconstructed exactly. -/
theorem C3_text_roundTrip_witness :
    2 ≤ (contLoop LARGE_BUFFER_SIZE (List.replicate (LARGE_BUFFER_SIZE + 1) 1)).length ∧
      readTextColumn LARGE_BUFFER_SIZE (List.replicate (LARGE_BUFFER_SIZE + 1) 1) =
        List.replicate (LARGE_BUFFER_SIZE + 1) 1 :=
  C3_text_roundTrip (List.replicate (LARGE_BUFFER_SIZE + 1) 1)
    (by simp [List.length_replicate])

/-- C4: a null column value, signalled by the SQL_NULL_DATA length
sentinel, decodes to the explicit null marker, which is distinct from an
empty string and from an empty byte sequence; a non-null value, empty or
not, never decodes to the null marker. -/
theorem C4_null_sentinel (binary : Bool) (resp : GetDataResp) :
    (resp.length = SQL_NULL_DATA → readColumnValue binary resp = Value.null)
    ∧ Value.null ≠ Value.str [] ∧ Value.null ≠ Value.bin []
    ∧ (resp.length ≠ SQL_NULL_DATA → readColumnValue binary resp ≠ Value.null) := by
  refine ⟨?_, by decide, by decide, ?_⟩
  · intro h
    simp [readColumnValue, h]
  · intro h
    cases binary <;> simp [readColumnValue, h]

/-- C4 witness: the null sentinel decodes to the null marker while an empty
non-null text value does not. -/
theorem C4_null_sentinel_witness :
    readColumnValue false ⟨SQL_NULL_DATA, []⟩ = Value.null ∧
      readColumnValue false ⟨0, []⟩ ≠ Value.null :=
  ⟨(C4_null_sentinel false ⟨SQL_NULL_DATA, []⟩).1 rfl,
    (C4_null_sentinel false ⟨0, []⟩).2.2.2 (by decide)⟩

/-- C8 (code bug): for a callproc row with one input/output parameter
(ordinal 0, own buffer 0) and one output parameter (ordinal 1, own buffer
1), after execution the resolver of the in/out parameter returns the value
the driver wrote into the OTHER parameter buffer: the registered closure
reads the executemany loop variable named param when it is called, and by
then the variable holds the last bound buffer.  The driver wrote 10 into
buffer 0 and 20 into buffer 1, yet both resolvers return 20. -/
theorem C8_resolver_reads_last_buffer :
    resolveAfter c8Row c8Store 0 = some [20]
    ∧ ownBuffer c8Row 0 = some 0
    ∧ c8Store 0 = [10]
    ∧ resolveAfter c8Row c8Store 1 = some [20]
    ∧ ownBuffer c8Row 1 = some 1 := by
  decide

theorem perRowLoop_mismatch (numParams : Nat) :
    ∀ (rows : List (List PParam)) (k start : Nat) (r : List PParam),
      rows.get? k = some r → r.length ≠ numParams →
      (∃ m, (perRowLoop numParams rows start).2 =
          some (paramsMismatchError m numParams) ∧ m ≠ numParams)
      ∧ (∀ j, ExEv.bindParam (start + k) j ∉ (perRowLoop numParams rows start).1)
      ∧ ExEv.executeCall (start + k) ∉ (perRowLoop numParams rows start).1 := by
  intro rows
  induction rows with
  | nil =>
    intro k start r hk
    simp at hk
  | cons p rest ih =>
    intro k start r hk hne
    by_cases hp : p.length = numParams
    · cases k with
      | zero =>
        simp at hk
        subst hk
        exact absurd hp hne
      | succ k' =>
        have hk' : rest.get? k' = some r := by simpa using hk
        obtain ⟨⟨m, hm, hmne⟩, hbind, hexec⟩ := ih k' (start + 1) r hk' hne
        have harith : start + (k' + 1) = start + 1 + k' := by omega
        have hred : perRowLoop numParams (p :: rest) start =
            ((List.range numParams).map (fun j => ExEv.bindParam start j) ++
              ExEv.executeCall start :: (perRowLoop numParams rest (start + 1)).1,
              (perRowLoop numParams rest (start + 1)).2) := by
          simp [perRowLoop, hp]
        rw [hred]
        refine ⟨⟨m, hm, hmne⟩, ?_, ?_⟩
        · intro j
          rw [harith]
          simp only [List.mem_append, List.mem_cons, List.mem_map, not_or]
          refine ⟨?_, ?_, ?_⟩
          · rintro ⟨j', _, hj⟩
            injection hj with h1 _
            omega
          · intro hj
            exact ExEv.noConfusion hj
          · exact fun hmem => hbind j hmem
        · rw [harith]
          simp only [List.mem_append, List.mem_cons, List.mem_map, not_or]
          refine ⟨?_, ?_, ?_⟩
          · rintro ⟨j', _, hj⟩
            exact ExEv.noConfusion hj
          · intro hj
            injection hj with h1
            omega
          · exact fun hmem => hexec hmem
    · refine ⟨⟨p.length, ?_, hp⟩, ?_, ?_⟩
      · simp [perRowLoop, hp]
      · intro j
        simp [perRowLoop, hp]
      · simp [perRowLoop, hp]

theorem findMismatch_of_mem (numParams : Nat) :
    ∀ (rows : List (List PParam)) (k : Nat) (r : List PParam),
      rows.get? k = some r → r.length ≠ numParams →
      ∃ m, findMismatch numParams rows = some m ∧ m ≠ numParams := by
  intro rows
  induction rows with
  | nil =>
    intro k r hk
    simp at hk
  | cons p rest ih =>
    intro k r hk hne
    by_cases hp : p.length = numParams
    · cases k with
      | zero =>
        simp at hk
        subst hk
        exact absurd hp hne
      | succ k' =>
        have hk' : rest.get? k' = some r := by simpa using hk
        obtain ⟨m, hm, hmne⟩ := ih k' r hk' hne
        exact ⟨m, by simpa [findMismatch, hp] using hm, hmne⟩
    · exact ⟨p.length, by simp [findMismatch, hp], hp⟩

/-- C2: for every prepared parameter count and every supplied row whose
length differs from it: in per-row mode execution fails with the
parameter-count-mismatch interface error and no bind or execute call is
issued for that row; in columnar batch mode it fails with the
parameter-count-mismatch interface error before any bind call at all, and
the batch execute is never issued. -/
theorem C2_param_count_mismatch (numParams : Nat) (rows : List (List PParam))
    (k : Nat) (r : List PParam)
    (hk : rows.get? k = some r) (hne : r.length ≠ numParams) :
    (∃ m, (executeManyPerRow numParams rows).2 = some (paramsMismatchError m numParams))
    ∧ (∀ j, ExEv.bindParam k j ∉ (executeManyPerRow numParams rows).1)
    ∧ ExEv.executeCall k ∉ (executeManyPerRow numParams rows).1
    ∧ (∃ m, (executeManyBatchEvents numParams rows).2 =
        some (paramsMismatchError m numParams))
    ∧ (∀ j, ExEv.bindArray j ∉ (executeManyBatchEvents numParams rows).1)
    ∧ ExEv.executeBatch ∉ (executeManyBatchEvents numParams rows).1 := by
  obtain ⟨⟨m, hm, _⟩, hbind, hexec⟩ := perRowLoop_mismatch numParams rows k 0 r hk hne
  obtain ⟨m2, hm2, _⟩ := findMismatch_of_mem numParams rows k r hk hne
  refine ⟨⟨m, by simpa [executeManyPerRow] using hm⟩, ?_, ?_, ?_, ?_, ?_⟩
  · intro j
    simp only [executeManyPerRow, List.mem_append, List.mem_cons, List.mem_map, not_or]
    refine ⟨⟨?_, ⟨?_, ?_⟩⟩, ?_⟩
    · intro hj
      cases hj
    · intro hj
      cases hj
    · simp
    · have := hbind j
      rw [Nat.zero_add] at this
      exact fun hmem => this hmem
  · simp only [executeManyPerRow, List.mem_append, List.mem_cons, List.mem_map, not_or]
    refine ⟨⟨?_, ⟨?_, ?_⟩⟩, ?_⟩
    · intro hj
      cases hj
    · intro hj
      cases hj
    · simp
    · have := hexec
      rw [Nat.zero_add] at this
      exact fun hmem => this hmem
  · exact ⟨m2, by simp [executeManyBatchEvents, hm2]⟩
  · intro j
    simp [executeManyBatchEvents, hm2]
  · simp [executeManyBatchEvents, hm2]

/-- C2 witness: a two-value row against a statement prepared with three
parameters fails in both modes with no bind or execute for that row. -/
theorem C2_param_count_mismatch_witness :
    (∃ m, (executeManyPerRow 3 [[PParam.scalar none, PParam.scalar none]]).2 =
        some (paramsMismatchError m 3))
    ∧ (∀ j, ExEv.bindParam 0 j ∉
        (executeManyPerRow 3 [[PParam.scalar none, PParam.scalar none]]).1)
    ∧ ExEv.executeCall 0 ∉
        (executeManyPerRow 3 [[PParam.scalar none, PParam.scalar none]]).1
    ∧ (∃ m, (executeManyBatchEvents 3 [[PParam.scalar none, PParam.scalar none]]).2 =
        some (paramsMismatchError m 3))
    ∧ (∀ j, ExEv.bindArray j ∉
        (executeManyBatchEvents 3 [[PParam.scalar none, PParam.scalar none]]).1)
    ∧ ExEv.executeBatch ∉
        (executeManyBatchEvents 3 [[PParam.scalar none, PParam.scalar none]]).1 :=
  C2_param_count_mismatch 3 [[PParam.scalar none, PParam.scalar none]] 0
    [PParam.scalar none, PParam.scalar none] rfl (by decide)

theorem takeWhile_append_zero (p : Nat → Bool) (hp : p 0 = false) (s z : List Nat) :
    (s ++ 0 :: z).takeWhile p = s.takeWhile p := by
  induction s with
  | nil => simp [List.takeWhile_cons, hp]
  | cons a s ih =>
    by_cases ha : p a = true
    · simp [List.takeWhile_cons, ha, ih]
    · simp [List.takeWhile_cons, ha]

theorem le_foldl_max {α : Type} (f : α → Nat) :
    ∀ (l : List α) (init : Nat), init ≤ l.foldl (fun m y => max m (f y)) init := by
  intro l
  induction l with
  | nil => intro init; simp
  | cons a l ih =>
    intro init
    calc init ≤ max init (f a) := le_max_left _ _
    _ ≤ l.foldl (fun m y => max m (f y)) (max init (f a)) := ih _

theorem mem_le_foldl_max {α : Type} (f : α → Nat) :
    ∀ (l : List α) (init : Nat) (x : α), x ∈ l →
      f x ≤ l.foldl (fun m y => max m (f y)) init := by
  intro l
  induction l with
  | nil =>
    intro init x hx
    simp at hx
  | cons a l ih =>
    intro init x hx
    rw [List.foldl_cons]
    rcases List.mem_cons.mp hx with rfl | hx
    · calc f x ≤ max init (f x) := le_max_right _ _
      _ ≤ l.foldl (fun m y => max m (f y)) (max init (f x)) := le_foldl_max f l _
    · exact ih (max init (f a)) x hx

theorem convertLen_le_colMaxLen (rows : List (List InVal)) (j : Nat)
    (p : List InVal) (hp : p ∈ rows) :
    convertLen (p.getD j InVal.null) ≤ colMaxLen rows j :=
  mem_le_foldl_max (fun p => convertLen (p.getD j InVal.null)) rows 0 p hp

theorem colSegment_length (isB : Bool) (maxLen : Nat) (v : InVal)
    (hv : convertLen v ≤ maxLen) :
    (colSegment isB (colStride isB maxLen) v).length = colStride isB maxLen := by
  cases v with
  | null => simp [colSegment]
  | bin b =>
    have hb : b.length ≤ maxLen := by simpa [convertLen] using hv
    cases isB <;>
      simp [colSegment, colStride, List.length_append, List.length_replicate] <;> omega
  | text s =>
    have hs : s.length ≤ maxLen := by simpa [convertLen] using hv
    cases isB <;>
      simp [colSegment, colStride, List.length_append, List.length_replicate] <;> omega

theorem flatten_drop_stride (stride : Nat) :
    ∀ (r : Nat) (segs : List (List Nat)), (∀ s ∈ segs, s.length = stride) →
      segs.flatten.drop (r * stride) = (segs.drop r).flatten := by
  intro r
  induction r with
  | zero =>
    intro segs h
    simp
  | succ r ih =>
    intro segs h
    cases segs with
    | nil => simp
    | cons s rest =>
      have hs : s.length = stride := h s (List.mem_cons_self s rest)
      have hrest : ∀ x ∈ rest, x.length = stride := fun x hx =>
        h x (List.mem_cons_of_mem s hx)
      rw [List.flatten_cons,
        (show (r + 1) * stride = s.length + r * stride by rw [hs]; ring),
        List.drop_append, ih rest hrest, List.drop_succ_cons]

theorem colIsBin_of_bin (rows : List (List InVal)) (j : Nat) (p : List InVal)
    (hp : p ∈ rows) (b : List Nat) (hv : p.getD j InVal.null = InVal.bin b) :
    colIsBin rows j = true := by
  simp only [colIsBin, List.any_eq_true]
  exact ⟨p, hp, by rw [hv]; rfl⟩

theorem decode_cell_agrees (rows : List (List InVal)) (j r : Nat)
    (hr : r < rows.length)
    (htext : ∀ s, (rows.get ⟨r, hr⟩).getD j InVal.null = InVal.text s →
      stickyBin (rows.get ⟨r, hr⟩) j = false ∧ colIsBin rows j = false) :
    decodeColCell (colIsBin rows j)
      (colStride (colIsBin rows j) (colMaxLen rows j))
      (colArray (colIsBin rows j) (colStride (colIsBin rows j) (colMaxLen rows j))
        (rows.map (fun p => p.getD j InVal.null)))
      r ((rows.get ⟨r, hr⟩).getD j InVal.null)
    = decodeCellPerRow (stickyBin (rows.get ⟨r, hr⟩) j)
        ((rows.get ⟨r, hr⟩).getD j InVal.null) := by
  have hlen : ∀ s ∈ ((rows.map (fun p => p.getD j InVal.null)).map
      (colSegment (colIsBin rows j) (colStride (colIsBin rows j) (colMaxLen rows j)))),
      s.length = colStride (colIsBin rows j) (colMaxLen rows j) := by
    intro s hs
    rcases List.mem_map.mp hs with ⟨v, hv, rfl⟩
    rcases List.mem_map.mp hv with ⟨p, hp, rfl⟩
    exact colSegment_length _ _ _ (convertLen_le_colMaxLen rows j p hp)
  have hrcol : r < (rows.map (fun p => p.getD j InVal.null)).length := by
    simpa using hr
  have hrm : r < ((rows.map (fun p => p.getD j InVal.null)).map
      (colSegment (colIsBin rows j)
        (colStride (colIsBin rows j) (colMaxLen rows j)))).length := by
    simpa using hr
  have hdrop : (colArray (colIsBin rows j)
        (colStride (colIsBin rows j) (colMaxLen rows j))
        (rows.map (fun p => p.getD j InVal.null))).drop
          (r * colStride (colIsBin rows j) (colMaxLen rows j)) =
      colSegment (colIsBin rows j) (colStride (colIsBin rows j) (colMaxLen rows j))
          ((rows.get ⟨r, hr⟩).getD j InVal.null) ++
        (((rows.map (fun p => p.getD j InVal.null)).map
          (colSegment (colIsBin rows j)
            (colStride (colIsBin rows j) (colMaxLen rows j)))).drop (r + 1)).flatten := by
    rw [colArray, flatten_drop_stride _ r _ hlen, List.drop_eq_get_cons hrm,
      List.flatten_cons]
    congr 2
    rw [List.get_map, List.get_map]
  cases hv : (rows.get ⟨r, hr⟩).getD j InVal.null with
  | null => simp [decodeColCell, decodeCellPerRow]
  | bin b =>
    have hB : colIsBin rows j = true :=
      colIsBin_of_bin rows j _ (rows.get_mem r hr) b hv
    rw [hv, hB] at hdrop
    simp only [decodeColCell, decodeCellPerRow, hB, if_true]
    rw [hdrop]
    simp only [colSegment, convertLen, List.append_assoc]
    rw [List.take_left]
  | text s =>
    obtain ⟨hsticky, hcolbin⟩ := htext s hv
    rw [hv, hcolbin] at hdrop
    simp only [decodeColCell, decodeCellPerRow, hcolbin, hsticky,
      Bool.false_eq_true, if_false]
    rw [hdrop]
    simp only [colSegment, Bool.false_eq_true, if_false]
    rw [List.append_assoc, List.cons_append,
      takeWhile_append_zero _ (by decide)]

/-- C5 counterexample: two rows that both match the prepared parameter
count, one binary and one text in the same column.  The per-row binder
binds the second row as text while the columnar binder binds the whole
column as binary, so the stored tables differ even though the row counts
agree. -/
theorem C5_counterexample :
    1 ≤ c5Rows.length ∧ (∀ p ∈ c5Rows, p.length = 1) ∧
    (perRowTable c5Rows).length = c5Rows.length ∧
    columnarTable c5Rows 1 ≠ some (perRowTable c5Rows) := by
  refine ⟨by decide, by decide, by decide, by decide⟩

/-- C5 amended: for every N at least 1 and every list of N rows of plain
input values each matching the prepared parameter count, columnar batched
execution produces the same row count and the same table contents as N
sequential per-row bind-and-execute iterations, provided that every text
cell is bound with the text element type in both modes (no byte-array value
earlier in its row and none anywhere in its column) and that no binary
column of stride zero contains a null cell (which makes the columnar writer
crash). -/
theorem C5_columnar_equiv (rows : List (List InVal)) (numParams : Nat)
    (h1 : 1 ≤ rows.length)
    (h2 : ∀ p ∈ rows, p.length = numParams)
    (h3 : ∀ p ∈ rows, ∀ j, ∀ s, p.getD j InVal.null = InVal.text s →
      stickyBin p j = false ∧ colIsBin rows j = false)
    (h4 : columnarCrash rows numParams = false) :
    columnarTable rows numParams = some (perRowTable rows)
    ∧ (perRowTable rows).length = rows.length := by
  refine ⟨?_, by simp [perRowTable]⟩
  rw [columnarTable, if_neg (by simp [h4])]
  congr 1
  apply List.ext_get (by simp [perRowTable])
  intro n hn1 hn2
  have hrows : n < rows.length := by
    simpa [perRowTable] using hn2
  simp only [perRowTable, List.get_map, List.get_range]
  rw [List.getD_eq_get rows [] hrows]
  have hmem : rows.get ⟨n, hrows⟩ ∈ rows := rows.get_mem n hrows
  have hplen : (rows.get ⟨n, hrows⟩).length = numParams := h2 _ hmem
  rw [hplen]
  apply List.ext_get (by simp)
  intro j hj1 hj2
  simp only [List.get_map, List.get_range]
  exact decode_cell_agrees rows j n hrows (fun s hs => h3 _ hmem j s hs)

/-- C5 witness: a one-column statement executed over a text row and a null
row gives the same table in both modes. -/
theorem C5_columnar_equiv_witness :
    columnarTable [[InVal.text [104]], [InVal.null]] 1 =
      some (perRowTable [[InVal.text [104]], [InVal.null]])
    ∧ (perRowTable [[InVal.text [104]], [InVal.null]]).length =
        ([[InVal.text [104]], [InVal.null]] : List (List InVal)).length := by
  refine C5_columnar_equiv [[InVal.text [104]], [InVal.null]] 1 (by decide) (by decide)
    ?_ (by decide)
  intro p hp j s heq
  rcases List.mem_cons.mp hp with rfl | hp
  · cases j with
    | zero => exact ⟨by decide, by decide⟩
    | succ j =>
      cases j <;> simp [List.getD] at heq
  · rcases List.mem_cons.mp hp with rfl | hp
    · cases j with
      | zero => simp [List.getD] at heq
      | succ j =>
        cases j <;> simp [List.getD] at heq
    · simp at hp

end PyTd
